import Mathlib

/-!
# Verification of the light-chaser firmware core

Shallow embedding of the cooperative real-time core of the light-chaser
firmware (game state machine, animation engine, button edge detector,
EEPROM-backed high-score store) together with proofs of the specified
properties.

Machine integers are modelled as `Nat` with explicit reduction modulo
`2^8`, `2^16` or `2^32` at the points where the C code's fixed-width
arithmetic can overflow.  `uint32_t` subtraction (used for all elapsed-time
comparisons) is modelled by `usub32`.
-/

/-- 32-bit unsigned wraparound subtraction `a - b`, as computed by
`uint32_t` arithmetic on the target: both operands live mod `2^32` and the
difference wraps. -/
def usub32 (a b : Nat) : Nat :=
  (a % 4294967296 + (4294967296 - b % 4294967296)) % 4294967296

/-! ## Persistent score store (hardware.cpp: EEPROM high-score record) -/

/-- `EEPROM_MAGIC_BYTE` from config.h. -/
def EEPROM_MAGIC_BYTE : Nat := 0xA5

/-- The four EEPROM cells at `EEPROM_HIGH_SCORE_ADDR .. +3`, plus a counter
of physical write cycles actually consumed (a cell rewritten with the value
it already holds costs nothing, per `EEPROM.update`). -/
structure EEPROM where
  b0 : Nat
  b1 : Nat
  b2 : Nat
  b3 : Nat
  physWrites : Nat
deriving DecidableEq, Repr

/-- `EEPROM.update(addr, val)`: write-if-changed discipline.  Only the four
cells of the high-score record are modelled; `off` is the offset from
`EEPROM_HIGH_SCORE_ADDR`. -/
def EEPROM.updateCell (e : EEPROM) (off val : Nat) : EEPROM :=
  match off with
  | 0 => if e.b0 = val then e else { e with b0 := val, physWrites := e.physWrites + 1 }
  | 1 => if e.b1 = val then e else { e with b1 := val, physWrites := e.physWrites + 1 }
  | 2 => if e.b2 = val then e else { e with b2 := val, physWrites := e.physWrites + 1 }
  | 3 => if e.b3 = val then e else { e with b3 := val, physWrites := e.physWrites + 1 }
  | _ => e

/-- `eeprom_read_high_score` (hardware.cpp lines 282-301). -/
def eeprom_read_high_score (e : EEPROM) : Nat :=
  let low_byte := e.b0
  let high_byte := e.b1
  let magic := e.b2
  let checksum := e.b3
  if magic ≠ EEPROM_MAGIC_BYTE then
    0
  else
    let expected_checksum := low_byte ^^^ high_byte ^^^ magic
    if checksum ≠ expected_checksum then
      0
    else
      low_byte ||| (high_byte <<< 8)

/-- `eeprom_write_high_score` (hardware.cpp lines 303-313). -/
def eeprom_write_high_score (score : Nat) (e : EEPROM) : EEPROM :=
  let low_byte := score &&& 0xFF
  let high_byte := (score >>> 8) &&& 0xFF
  let checksum := low_byte ^^^ high_byte ^^^ EEPROM_MAGIC_BYTE
  ((((e.updateCell 0 low_byte).updateCell 1 high_byte).updateCell 2
      EEPROM_MAGIC_BYTE).updateCell 3 checksum)

/-- Flip bit `k` of the byte at offset `off` of the stored record. -/
def EEPROM.flipBit (e : EEPROM) (off k : Nat) : EEPROM :=
  match off with
  | 0 => { e with b0 := e.b0 ^^^ (1 <<< k) }
  | 1 => { e with b1 := e.b1 ^^^ (1 <<< k) }
  | 2 => { e with b2 := e.b2 ^^^ (1 <<< k) }
  | 3 => { e with b3 := e.b3 ^^^ (1 <<< k) }
  | _ => e

theorem updateCell_b0 (e : EEPROM) (v : Nat) : (e.updateCell 0 v).b0 = v := by
  simp only [EEPROM.updateCell]; split <;> simp_all

theorem updateCell_b1 (e : EEPROM) (v : Nat) : (e.updateCell 1 v).b1 = v := by
  simp only [EEPROM.updateCell]; split <;> simp_all

theorem updateCell_b2 (e : EEPROM) (v : Nat) : (e.updateCell 2 v).b2 = v := by
  simp only [EEPROM.updateCell]; split <;> simp_all

theorem updateCell_b3 (e : EEPROM) (v : Nat) : (e.updateCell 3 v).b3 = v := by
  simp only [EEPROM.updateCell]; split <;> simp_all

theorem updateCell1_keeps_b0 (e : EEPROM) (v : Nat) :
    (e.updateCell 1 v).b0 = e.b0 := by
  simp only [EEPROM.updateCell]; split <;> rfl

theorem updateCell2_keeps_b0 (e : EEPROM) (v : Nat) :
    (e.updateCell 2 v).b0 = e.b0 := by
  simp only [EEPROM.updateCell]; split <;> rfl

theorem updateCell3_keeps_b0 (e : EEPROM) (v : Nat) :
    (e.updateCell 3 v).b0 = e.b0 := by
  simp only [EEPROM.updateCell]; split <;> rfl

theorem updateCell2_keeps_b1 (e : EEPROM) (v : Nat) :
    (e.updateCell 2 v).b1 = e.b1 := by
  simp only [EEPROM.updateCell]; split <;> rfl

theorem updateCell3_keeps_b1 (e : EEPROM) (v : Nat) :
    (e.updateCell 3 v).b1 = e.b1 := by
  simp only [EEPROM.updateCell]; split <;> rfl

theorem updateCell3_keeps_b2 (e : EEPROM) (v : Nat) :
    (e.updateCell 3 v).b2 = e.b2 := by
  simp only [EEPROM.updateCell]; split <;> rfl

/-- After a save, the four stored bytes are exactly the record the code
computes, whatever was stored before. -/
theorem eeprom_write_bytes (v : Nat) (e : EEPROM) :
    (eeprom_write_high_score v e).b0 = (v &&& 0xFF) ∧
    (eeprom_write_high_score v e).b1 = ((v >>> 8) &&& 0xFF) ∧
    (eeprom_write_high_score v e).b2 = EEPROM_MAGIC_BYTE ∧
    (eeprom_write_high_score v e).b3 =
      ((v &&& 0xFF) ^^^ ((v >>> 8) &&& 0xFF) ^^^ EEPROM_MAGIC_BYTE) := by
  unfold eeprom_write_high_score
  refine ⟨?_, ?_, ?_, ?_⟩
  · rw [updateCell3_keeps_b0, updateCell2_keeps_b0, updateCell1_keeps_b0, updateCell_b0]
  · rw [updateCell3_keeps_b1, updateCell2_keeps_b1, updateCell_b1]
  · rw [updateCell3_keeps_b2, updateCell_b2]
  · rw [updateCell_b3]

/-- Reassembling the two bytes of a 16-bit value gives the value back. -/
theorem byte_recombine (v : Nat) (hv : v < 65536) :
    (v &&& 0xFF) ||| (((v >>> 8) &&& 0xFF) <<< 8) = v := by
  have h255 : (0xFF : Nat) = 2 ^ 8 - 1 := by norm_num
  have hand : v &&& 0xFF = v % 2 ^ 8 := by
    rw [h255, Nat.and_pow_two_sub_one_eq_mod]
  have hdivlt : v / 2 ^ 8 < 2 ^ 8 := by
    norm_num
    omega
  have hand2 : (v >>> 8) &&& 0xFF = v / 2 ^ 8 := by
    rw [h255, Nat.and_pow_two_sub_one_eq_mod, Nat.shiftRight_eq_div_pow,
      Nat.mod_eq_of_lt hdivlt]
  rw [hand, hand2, Nat.shiftLeft_eq, Nat.or_comm, Nat.mul_comm (v / 2 ^ 8) (2 ^ 8),
    ← Nat.mul_add_lt_is_or (Nat.mod_lt v (by norm_num)) (v / 2 ^ 8)]
  exact Nat.div_add_mod v (2 ^ 8)

/-- C1: for every `v` in `[0, 65535]`, a save immediately followed by a
load (no modification of the four stored bytes in between) returns
exactly `v`. -/
theorem eeprom_round_trip (v : Nat) (e : EEPROM) (hv : v < 65536) :
    eeprom_read_high_score (eeprom_write_high_score v e) = v := by
  obtain ⟨h0, h1, h2, h3⟩ := eeprom_write_bytes v e
  unfold eeprom_read_high_score
  rw [h0, h1, h2, h3]
  rw [if_neg (by simp), if_neg (by simp)]
  exact byte_recombine v hv

/-- Witness for C1 at `v = 54321`. -/
theorem eeprom_round_trip_witness :
    eeprom_read_high_score
      (eeprom_write_high_score 54321 ⟨1, 2, 3, 4, 0⟩) = 54321 :=
  eeprom_round_trip 54321 ⟨1, 2, 3, 4, 0⟩ (by decide)

theorem shiftLeft_one_ne_zero (k : Nat) : (1 <<< k) ≠ 0 := by
  rw [Nat.shiftLeft_eq, Nat.one_mul]
  exact (Nat.two_pow_pos k).ne'

/-- XOR with a nonzero mask always changes the value. -/
theorem xor_flip_ne (a s : Nat) (hs : s ≠ 0) : a ^^^ s ≠ a := by
  intro h
  apply hs
  have h2 : a ^^^ s = a ^^^ 0 := by rw [Nat.xor_zero]; exact h
  exact Nat.xor_right_inj.mp h2

/-- C2: flipping any single bit of any of the four stored bytes right after
a save makes the subsequent load return 0. -/
theorem eeprom_corruption_detected (v : Nat) (e : EEPROM) (off k : Nat)
    (hoff : off < 4) (_hk : k < 8) :
    eeprom_read_high_score ((eeprom_write_high_score v e).flipBit off k) = 0 := by
  obtain ⟨h0, h1, h2, h3⟩ := eeprom_write_bytes v e
  have hs : (1 <<< k) ≠ 0 := shiftLeft_one_ne_zero k
  interval_cases off
  · -- bit flipped in the low byte: checksum mismatch
    unfold eeprom_read_high_score EEPROM.flipBit
    simp only [h0, h1, h2, h3]
    rw [if_neg (by simp [EEPROM_MAGIC_BYTE]), if_pos]
    rw [Nat.xor_assoc, Nat.xor_assoc]
    intro hcontra
    exact xor_flip_ne (v &&& 0xFF) (1 <<< k) hs
      (Nat.xor_left_inj.mp hcontra.symm)
  · -- bit flipped in the high byte: checksum mismatch
    unfold eeprom_read_high_score EEPROM.flipBit
    simp only [h0, h1, h2, h3]
    rw [if_neg (by simp [EEPROM_MAGIC_BYTE]), if_pos]
    rw [Nat.xor_assoc, Nat.xor_assoc]
    intro hcontra
    have hinner := Nat.xor_right_inj.mp hcontra.symm
    exact xor_flip_ne ((v >>> 8) &&& 0xFF) (1 <<< k) hs
      (Nat.xor_left_inj.mp hinner)
  · -- bit flipped in the magic byte: magic mismatch
    unfold eeprom_read_high_score EEPROM.flipBit
    simp only [h0, h1, h2, h3]
    rw [if_pos]
    exact xor_flip_ne EEPROM_MAGIC_BYTE (1 <<< k) hs
  · -- bit flipped in the checksum byte: checksum mismatch
    unfold eeprom_read_high_score EEPROM.flipBit
    simp only [h0, h1, h2, h3]
    rw [if_neg (by simp [EEPROM_MAGIC_BYTE]), if_pos]
    exact xor_flip_ne _ (1 <<< k) hs

/-- Witness for C2: `v = 54321`, bit 3 of the magic byte. -/
theorem eeprom_corruption_detected_witness :
    eeprom_read_high_score
      ((eeprom_write_high_score 54321 ⟨1, 2, 3, 4, 0⟩).flipBit 2 3) = 0 :=
  eeprom_corruption_detected 54321 ⟨1, 2, 3, 4, 0⟩ 2 3 (by decide) (by decide)

/-! ## Animation engine (hardware.cpp lines 88-246)

State: `anim_state`, `anim_step`, `anim_last_update` plus the LED-channel
variables `led_sweep`, `led_pos`, `flash_count`, `flash_state`,
`led_last_update`.  `uint8_t` counters wrap mod 256, `uint32_t`
timestamps subtract through `usub32`. -/

inductive AnimKind
  | idle
  | bullseye
  | celebration
  | gameOver
deriving DecidableEq, Repr

structure AnimState where
  kind : AnimKind
  step : Nat
  lastUpdate : Nat
  ledSweep : Nat
  ledPos : Nat
  flashCount : Nat
  flashState : Bool
  ledLastUpdate : Nat
deriving DecidableEq, Repr

/-- Observable hardware side effects emitted by one call. -/
inductive HwEffect
  | tone (freq dur : Nat)
  | ledSet (pos : Nat) (isOn : Bool)
  | ledClearAll
deriving DecidableEq, Repr

/-- `led_set` (hardware.cpp lines 34-41): out-of-range positions are
silently ignored. -/
def led_set (pos : Nat) (st : Bool) : List HwEffect :=
  if pos ≥ 8 then [] else [HwEffect.ledSet pos st]

/-- The celebration buzzer schedule `freqs[]` (hardware.cpp line 134). -/
def celebFreq : Nat → Nat
  | 0 => 523
  | 1 => 659
  | 2 => 784
  | 3 => 1047
  | 4 => 1319
  | _ => 0

/-- The celebration buzzer schedule `durations[]` (hardware.cpp line 135). -/
def celebDur : Nat → Nat
  | 0 => 150
  | 1 => 150
  | 2 => 150
  | 3 => 150
  | 4 => 300
  | _ => 0

/-- The game-over buzzer notes (hardware.cpp lines 180-184): tones for
steps 0, 1, 2 and nothing otherwise (the `switch` has no default). -/
def gameOverTone : Nat → List HwEffect
  | 0 => [HwEffect.tone 400 200]
  | 1 => [HwEffect.tone 300 200]
  | 2 => [HwEffect.tone 200 200]
  | _ => []

/-- The bullseye notes (hardware.cpp lines 119-121). -/
def bullseyeTone : Nat → List HwEffect
  | 0 => [HwEffect.tone 800 100]
  | 1 => [HwEffect.tone 1000 100]
  | 2 => [HwEffect.tone 1200 100]
  | _ => []

/-- The `ANIM_BULLSEYE` case of `animation_update` (hardware.cpp lines
114-130): single buzzer channel, three notes, completes when `anim_step`
reaches 3. -/
def bullseyeUpdate (now : Nat) (s : AnimState) : Bool × AnimState × List HwEffect :=
  if usub32 now s.lastUpdate ≥ 100 then
    let effs := bullseyeTone s.step
    let step1 := (s.step + 1) % 256
    if step1 ≥ 3 then
      (true, { s with kind := AnimKind.idle, lastUpdate := now, step := step1 }, effs)
    else
      (false, { s with lastUpdate := now, step := step1 }, effs)
  else
    (false, s, [])

/-- The buzzer channel of `ANIM_CELEBRATION` (hardware.cpp lines 133-141). -/
def celebAudio (now : Nat) (s : AnimState) : AnimState × List HwEffect :=
  if s.step < 5 ∧ usub32 now s.lastUpdate ≥
      (if s.step = 0 then 0 else celebDur (s.step - 1) + 50) then
    ({ s with lastUpdate := now, step := (s.step + 1) % 256 },
      [HwEffect.tone (celebFreq s.step) (celebDur s.step)])
  else
    (s, [])

/-- The LED sweep channel of `ANIM_CELEBRATION` (hardware.cpp lines
143-162), which runs in parallel with the buzzer channel. -/
def celebLed (now : Nat) (s : AnimState) : AnimState × List HwEffect :=
  if usub32 now s.ledLastUpdate ≥ 40 then
    let st := { s with ledLastUpdate := now }
    if st.ledSweep < 3 then
      let eff1 := led_set st.ledPos false
      let pos1 := (st.ledPos + 1) % 256
      let su :=
        if pos1 ≥ 8 then { st with ledPos := 0, ledSweep := (st.ledSweep + 1) % 256 }
        else { st with ledPos := pos1 }
      if su.ledSweep < 3 then
        (su, eff1 ++ led_set su.ledPos true)
      else
        (su, eff1 ++ [HwEffect.ledClearAll])
    else
      (st, [])
  else
    (s, [])

/-- The `ANIM_CELEBRATION` case of `animation_update` (hardware.cpp lines
132-172): both channels advance, then the completion check fires when the
buzzer has played all 5 notes and the sweep has finished all 3 passes. -/
def celebrationUpdate (now : Nat) (s : AnimState) : Bool × AnimState × List HwEffect :=
  let a := celebAudio now s
  let l := celebLed now a.1
  if l.1.step ≥ 5 ∧ l.1.ledSweep ≥ 3 then
    (true, { l.1 with kind := AnimKind.idle, ledSweep := 0, ledPos := 0 }, a.2 ++ l.2)
  else
    (false, l.1, a.2 ++ l.2)

/-- The buzzer channel of `ANIM_GAME_OVER` (hardware.cpp lines 175-187). -/
def gameOverAudio (now : Nat) (s : AnimState) : AnimState × List HwEffect :=
  if usub32 now s.lastUpdate ≥ 200 then
    let st := { s with lastUpdate := now }
    if st.step < 3 then
      ({ st with step := (st.step + 1) % 256 }, gameOverTone s.step)
    else
      (st, [])
  else
    (s, [])

/-- The LED flash channel of `ANIM_GAME_OVER` (hardware.cpp lines 189-209),
including the completion check, which lives inside this channel's timing
branch and looks only at `flash_count`. -/
def gameOverLed (now : Nat) (s : AnimState) : Bool × AnimState × List HwEffect :=
  if usub32 now s.ledLastUpdate ≥ 150 then
    let fs := !s.flashState
    let cnt := if fs then (s.flashCount + 1) % 256 else s.flashCount
    let effL :=
      if fs then (List.range 8).map (fun i => HwEffect.ledSet i true)
      else [HwEffect.ledClearAll]
    let s2 := { s with ledLastUpdate := now, flashState := fs, flashCount := cnt }
    if cnt ≥ 5 then
      (true, { s2 with kind := AnimKind.idle, flashCount := 0 },
        effL ++ [HwEffect.ledClearAll])
    else
      (false, s2, effL)
  else
    (false, s, [])

/-- The `ANIM_GAME_OVER` case of `animation_update` (hardware.cpp lines
174-210). -/
def gameOverUpdate (now : Nat) (s : AnimState) : Bool × AnimState × List HwEffect :=
  let a := gameOverAudio now s
  let l := gameOverLed now a.1
  (l.1, l.2.1, a.2 ++ l.2.2)

/-- `animation_update` (hardware.cpp lines 106-218).  Returns the C
function's boolean result, the updated animation state, and the emitted
hardware effects in order. -/
def animation_update (now : Nat) (s : AnimState) : Bool × AnimState × List HwEffect :=
  match s.kind with
  | AnimKind.idle => (true, s, [])
  | AnimKind.bullseye => bullseyeUpdate now s
  | AnimKind.celebration => celebrationUpdate now s
  | AnimKind.gameOver => gameOverUpdate now s

/-- `animation_start_bullseye` (hardware.cpp lines 220-224). -/
def animation_start_bullseye (now : Nat) (s : AnimState) : AnimState :=
  { s with kind := AnimKind.bullseye, step := 0, lastUpdate := now }

/-- `animation_start_celebration` (hardware.cpp lines 226-233). -/
def animation_start_celebration (now : Nat) (s : AnimState) : AnimState :=
  { s with kind := AnimKind.celebration, step := 0, ledSweep := 0, ledPos := 0
           lastUpdate := now, ledLastUpdate := now }

/-- `animation_start_game_over` (hardware.cpp lines 235-242). -/
def animation_start_game_over (now : Nat) (s : AnimState) : AnimState :=
  { s with kind := AnimKind.gameOver, step := 0, flashCount := 0, flashState := false
           lastUpdate := now, ledLastUpdate := now }

/-- `animation_is_playing` (hardware.cpp lines 244-246). -/
def animation_is_playing (s : AnimState) : Bool :=
  s.kind ≠ AnimKind.idle

/-- Static initial animation state (hardware.cpp lines 95-104). -/
def animInit : AnimState :=
  ⟨AnimKind.idle, 0, 0, 0, 0, 0, false, 0⟩

/-- The buzzer-channel step counter of the celebration animation after one
call at time `now` (the value the completion check reads). -/
def celebStepAfter (now : Nat) (s : AnimState) : Nat :=
  if s.step < 5 ∧ usub32 now s.lastUpdate ≥
      (if s.step = 0 then 0 else celebDur (s.step - 1) + 50) then
    (s.step + 1) % 256
  else
    s.step

/-- The LED-channel sweep counter of the celebration animation after one
call at time `now`. -/
def celebSweepAfter (now : Nat) (s : AnimState) : Nat :=
  if usub32 now s.ledLastUpdate ≥ 40 ∧ s.ledSweep < 3 then
    if (s.ledPos + 1) % 256 ≥ 8 then (s.ledSweep + 1) % 256 else s.ledSweep
  else
    s.ledSweep

/-- The flash counter of the game-over animation after one call at time
`now` (incremented exactly when the LED channel fires and toggles on). -/
def gameOverFlashCountAfter (now : Nat) (s : AnimState) : Nat :=
  if usub32 now s.ledLastUpdate ≥ 150 ∧ s.flashState = false then
    (s.flashCount + 1) % 256
  else
    s.flashCount

theorem celebAudio_spec (now : Nat) (s : AnimState) :
    (celebAudio now s).1.step = celebStepAfter now s ∧
    (celebAudio now s).1.kind = s.kind ∧
    (celebAudio now s).1.ledSweep = s.ledSweep ∧
    (celebAudio now s).1.ledPos = s.ledPos ∧
    (celebAudio now s).1.ledLastUpdate = s.ledLastUpdate := by
  by_cases h : (s.step < 5 ∧ usub32 now s.lastUpdate ≥
      (if s.step = 0 then 0 else celebDur (s.step - 1) + 50))
  · simp [celebAudio, celebStepAfter, if_pos h]
  · simp [celebAudio, celebStepAfter, if_neg h]

theorem celebLed_spec (now : Nat) (s : AnimState) :
    (celebLed now s).1.ledSweep = celebSweepAfter now s ∧
    (celebLed now s).1.kind = s.kind ∧
    (celebLed now s).1.step = s.step := by
  unfold celebLed celebSweepAfter
  by_cases h1 : usub32 now s.ledLastUpdate ≥ 40
  · by_cases h2 : s.ledSweep < 3
    · simp only [if_pos h1, if_pos h2, if_pos (And.intro h1 h2)]
      by_cases h3 : (s.ledPos + 1) % 256 ≥ 8
      · simp only [if_pos h3]
        split <;> simp
      · simp only [if_neg h3]
        split <;> simp
    · simp only [if_pos h1, if_neg h2]
      rw [if_neg]
      · simp
      · intro hc
        exact h2 hc.2
  · rw [if_neg h1, if_neg]
    · simp
    · intro hc
      exact h1 hc.1

theorem gameOverAudio_spec (now : Nat) (s : AnimState) :
    (gameOverAudio now s).1.kind = s.kind ∧
    (gameOverAudio now s).1.ledLastUpdate = s.ledLastUpdate ∧
    (gameOverAudio now s).1.flashCount = s.flashCount ∧
    (gameOverAudio now s).1.flashState = s.flashState := by
  unfold gameOverAudio
  by_cases h1 : usub32 now s.lastUpdate ≥ 200
  · by_cases h2 : s.step < 3
    · simp [h1, h2]
    · simp [h1, h2]
  · simp [h1]

theorem gameOverLed_char (now : Nat) (s : AnimState) :
    ((gameOverLed now s).1 = true ↔
      (usub32 now s.ledLastUpdate ≥ 150 ∧ gameOverFlashCountAfter now s ≥ 5)) ∧
    ((gameOverLed now s).2.1.kind =
      if (gameOverLed now s).1 then AnimKind.idle else s.kind) := by
  unfold gameOverLed gameOverFlashCountAfter
  by_cases h1 : usub32 now s.ledLastUpdate ≥ 150
  · cases hfs : s.flashState
    · by_cases hc : (s.flashCount + 1) % 256 ≥ 5
      · simp [h1, hfs, hc]
      · simp [h1, hfs, hc]
    · by_cases hc : s.flashCount ≥ 5
      · simp [h1, hfs, hc]
      · simp [h1, hfs, hc]
  · simp [h1]

theorem bullseyeUpdate_char (now : Nat) (s : AnimState) :
    ((bullseyeUpdate now s).1 = true ↔
      (usub32 now s.lastUpdate ≥ 100 ∧ (s.step + 1) % 256 ≥ 3)) ∧
    ((bullseyeUpdate now s).2.1.kind =
      if (bullseyeUpdate now s).1 then AnimKind.idle else s.kind) := by
  unfold bullseyeUpdate
  by_cases h1 : usub32 now s.lastUpdate ≥ 100
  · by_cases h2 : (s.step + 1) % 256 ≥ 3
    · simp [h1, h2]
    · simp [h1, h2]
  · simp [h1]

theorem celebrationUpdate_char (now : Nat) (s : AnimState) :
    ((celebrationUpdate now s).1 = true ↔
      (celebStepAfter now s ≥ 5 ∧ celebSweepAfter now s ≥ 3)) ∧
    ((celebrationUpdate now s).2.1.kind =
      if (celebrationUpdate now s).1 then AnimKind.idle else s.kind) := by
  have hA := celebAudio_spec now s
  have hL := celebLed_spec now (celebAudio now s).1
  have hstep : (celebLed now (celebAudio now s).1).1.step = celebStepAfter now s := by
    rw [hL.2.2, hA.1]
  have hsw2 : (celebLed now (celebAudio now s).1).1.ledSweep = celebSweepAfter now s := by
    rw [hL.1]
    unfold celebSweepAfter
    rw [hA.2.2.1, hA.2.2.2.1, hA.2.2.2.2]
  have hkind : (celebLed now (celebAudio now s).1).1.kind = s.kind := by
    rw [hL.2.1, hA.2.1]
  simp only [celebrationUpdate]
  by_cases hdone : ((celebLed now (celebAudio now s).1).1.step ≥ 5 ∧
      (celebLed now (celebAudio now s).1).1.ledSweep ≥ 3)
  · simp only [if_pos hdone]
    refine ⟨iff_of_true trivial ⟨?_, ?_⟩, by simp⟩
    · rw [← hstep]
      exact hdone.1
    · rw [← hsw2]
      exact hdone.2
  · simp only [if_neg hdone]
    refine ⟨iff_of_false (by simp) ?_, by simp [hkind]⟩
    intro hrhs
    refine hdone ⟨?_, ?_⟩
    · rw [hstep]
      exact hrhs.1
    · rw [hsw2]
      exact hrhs.2

theorem gameOverUpdate_char (now : Nat) (s : AnimState) :
    ((gameOverUpdate now s).1 = true ↔
      (usub32 now s.ledLastUpdate ≥ 150 ∧ gameOverFlashCountAfter now s ≥ 5)) ∧
    ((gameOverUpdate now s).2.1.kind =
      if (gameOverUpdate now s).1 then AnimKind.idle else s.kind) := by
  have hA := gameOverAudio_spec now s
  have hl := gameOverLed_char now (gameOverAudio now s).1
  have hflip : gameOverFlashCountAfter now (gameOverAudio now s).1 =
      gameOverFlashCountAfter now s := by
    unfold gameOverFlashCountAfter
    rw [hA.2.1, hA.2.2.1, hA.2.2.2]
  simp only [gameOverUpdate]
  constructor
  · exact hl.1.trans (by rw [hA.2.1, hflip])
  · rw [hl.2, hA.1]

theorem animation_update_characterization (now : Nat) (s : AnimState) :
    (s.kind = AnimKind.idle → animation_update now s = (true, s, [])) ∧
    ((animation_update now s).1 = true ↔
      (animation_update now s).2.1.kind = AnimKind.idle) ∧
    (s.kind = AnimKind.bullseye →
      ((animation_update now s).1 = true ↔
        usub32 now s.lastUpdate ≥ 100 ∧ (s.step + 1) % 256 ≥ 3)) ∧
    (s.kind = AnimKind.celebration →
      ((animation_update now s).1 = true ↔
        celebStepAfter now s ≥ 5 ∧ celebSweepAfter now s ≥ 3)) ∧
    (s.kind = AnimKind.gameOver →
      ((animation_update now s).1 = true ↔
        usub32 now s.ledLastUpdate ≥ 150 ∧ gameOverFlashCountAfter now s ≥ 5)) := by
  refine ⟨?_, ?_, ?_, ?_, ?_⟩
  · intro hk
    simp [animation_update, hk]
  · cases hk : s.kind
    case idle => simp [animation_update, hk]
    case bullseye =>
      have h := (bullseyeUpdate_char now s).2
      simp only [animation_update, hk]
      rw [h, hk]
      cases hb : (bullseyeUpdate now s).1 <;> simp [hb]
    case celebration =>
      have h := (celebrationUpdate_char now s).2
      simp only [animation_update, hk]
      rw [h, hk]
      cases hb : (celebrationUpdate now s).1 <;> simp [hb]
    case gameOver =>
      have h := (gameOverUpdate_char now s).2
      simp only [animation_update, hk]
      rw [h, hk]
      cases hb : (gameOverUpdate now s).1 <;> simp [hb]
  · intro hk
    simp only [animation_update, hk]
    exact (bullseyeUpdate_char now s).1
  · intro hk
    simp only [animation_update, hk]
    exact (celebrationUpdate_char now s).1
  · intro hk
    simp only [animation_update, hk]
    exact (gameOverUpdate_char now s).1

def c3TracePre : AnimState :=
  [199, 100, 99, 98, 97, 96, 95, 94].foldl
    (fun s t => (animation_update t s).2.1)
    (animation_start_game_over 0 animInit)

theorem animation_update_incomplete_channel_cex :
    c3TracePre.kind = AnimKind.gameOver ∧
    c3TracePre.step = 0 ∧
    (animation_update 93 c3TracePre).1 = true ∧
    (animation_update 93 c3TracePre).2.1.kind = AnimKind.idle := by decide

theorem animation_update_characterization_witness :
    animation_update 7 animInit = (true, animInit, []) :=
  (animation_update_characterization 7 animInit).1 rfl

/-! ## Button edge detector (hardware.cpp lines 6-8, 49-74)

`rawLevel` is the value `digitalRead(BUTTON_PIN)` returns for the frame:
the input is active-low, so `rawLevel = false` means physically pressed. -/

structure ButtonState where
  lastButtonState : Bool
  lastDebounceTime : Nat
deriving DecidableEq, Repr

/-- `button_just_pressed` (hardware.cpp lines 49-67).  `DEBOUNCE_MS = 50`
(config.h). -/
def button_just_pressed (now : Nat) (rawLevel : Bool) (b : ButtonState) :
    Bool × ButtonState :=
  let current_state := !rawLevel
  if current_state && !b.lastButtonState then
    if usub32 now b.lastDebounceTime ≥ 50 then
      (true, { lastButtonState := current_state, lastDebounceTime := now })
    else
      (false, { b with lastButtonState := current_state })
  else
    (false, { b with lastButtonState := current_state })

/-- `button_clear_state` (hardware.cpp lines 69-74). -/
def button_clear_state (now : Nat) (rawLevel : Bool) : ButtonState :=
  { lastButtonState := !rawLevel, lastDebounceTime := now }

/-- Run the edge detector over a frame trace of `(now, rawLevel)` pairs. -/
def buttonRun (b : ButtonState) (xs : List (Nat × Bool)) : ButtonState :=
  xs.foldl (fun st p => (button_just_pressed p.1 p.2 st).2) b

theorem button_step_char (now : Nat) (lvl : Bool) (b : ButtonState) :
    ((button_just_pressed now lvl b).1 = true ↔
      (lvl = false ∧ b.lastButtonState = false ∧ usub32 now b.lastDebounceTime ≥ 50)) ∧
    ((button_just_pressed now lvl b).2.lastDebounceTime =
      if (button_just_pressed now lvl b).1 then now else b.lastDebounceTime) ∧
    ((button_just_pressed now lvl b).2.lastButtonState = !lvl) := by
  unfold button_just_pressed
  cases lvl <;> cases hlast : b.lastButtonState <;>
    by_cases ht : usub32 now b.lastDebounceTime ≥ 50 <;>
    simp [hlast, ht]

theorem buttonRun_nil (b : ButtonState) : buttonRun b [] = b := rfl

theorem buttonRun_cons (b : ButtonState) (x : Nat × Bool) (t : List (Nat × Bool)) :
    buttonRun b (x :: t) = buttonRun (button_just_pressed x.1 x.2 b).2 t := rfl

theorem buttonRun_append (b : ButtonState) (xs ys : List (Nat × Bool)) :
    buttonRun b (xs ++ ys) = buttonRun (buttonRun b xs) ys := by
  unfold buttonRun
  exact List.foldl_append _ _ xs ys

/-- If no call of `xs` reports a press, the debounce origin is unchanged. -/
theorem buttonRun_no_accept (xs : List (Nat × Bool)) : ∀ b : ButtonState,
    (∀ i (hi : i < xs.length),
      (button_just_pressed (xs.get ⟨i, hi⟩).1 (xs.get ⟨i, hi⟩).2
        (buttonRun b (xs.take i))).1 = false) →
    (buttonRun b xs).lastDebounceTime = b.lastDebounceTime := by
  induction xs with
  | nil => intro b _; rfl
  | cons x t ih =>
    intro b h
    have h0 := h 0 (by simp)
    simp only [List.take_zero, List.get, buttonRun_nil] at h0
    have hstep := (button_step_char x.1 x.2 b).2.1
    rw [h0] at hstep
    simp only [Bool.false_eq_true, if_neg (by simp : ¬False)] at hstep
    have ht : buttonRun b (x :: t) =
        buttonRun (button_just_pressed x.1 x.2 b).2 t := rfl
    rw [ht, ih (button_just_pressed x.1 x.2 b).2 ?_, hstep]
    intro i hi
    have hnext := h (i + 1) (by simpa using Nat.succ_lt_succ hi)
    simpa using hnext

theorem button_debounce_window (s0 : ButtonState) (xs ys : List (Nat × Bool))
    (t1 t2 : Nat) (l1 l2 : Bool)
    (hacc : (button_just_pressed t1 l1 (buttonRun s0 xs)).1 = true)
    (hnone : ∀ i (hi : i < ys.length),
      (button_just_pressed (ys.get ⟨i, hi⟩).1 (ys.get ⟨i, hi⟩).2
        (buttonRun s0 (xs ++ (t1, l1) :: ys.take i))).1 = false) :
    (buttonRun s0 (xs ++ (t1, l1) :: ys)).lastDebounceTime = t1 ∧
    ((button_just_pressed t2 l2 (buttonRun s0 (xs ++ (t1, l1) :: ys))).1 = true ↔
      (l2 = false ∧
        (buttonRun s0 (xs ++ (t1, l1) :: ys)).lastButtonState = false ∧
        usub32 t2 t1 ≥ 50)) := by
  have hmid : (buttonRun s0 (xs ++ [(t1, l1)])).lastDebounceTime = t1 := by
    rw [buttonRun_append]
    have h := (button_step_char t1 l1 (buttonRun s0 xs)).2.1
    rw [hacc] at h
    simpa [buttonRun_cons, buttonRun_nil] using h
  have hfinal : (buttonRun s0 (xs ++ (t1, l1) :: ys)).lastDebounceTime = t1 := by
    have heq : xs ++ (t1, l1) :: ys = (xs ++ [(t1, l1)]) ++ ys := by simp
    rw [heq, buttonRun_append,
      buttonRun_no_accept ys (buttonRun s0 (xs ++ [(t1, l1)])) ?_, hmid]
    intro i hi
    have h := hnone i hi
    have heq2 : xs ++ (t1, l1) :: ys.take i = (xs ++ [(t1, l1)]) ++ ys.take i := by
      simp
    rw [heq2, buttonRun_append] at h
    exact h
  refine ⟨hfinal, ?_⟩
  have hchar := (button_step_char t2 l2 (buttonRun s0 (xs ++ (t1, l1) :: ys))).1
  rw [hfinal] at hchar
  exact hchar

/-- Witness for C4: a press accepted at t=100, a bounce at t=140 (40 ms
later) rejected, and a fresh edge at t=160 (60 ms later) accepted. -/
theorem button_debounce_window_witness :
    (button_just_pressed 160 false
      (buttonRun ⟨false, 0⟩
        ([] ++ (100, false) ::
          [(120, false), (130, true), (140, false), (145, true)]))).1 = true :=
  ((button_debounce_window ⟨false, 0⟩ []
      [(120, false), (130, true), (140, false), (145, true)]
      100 160 false false (by decide) (by decide)).2).mpr (by decide)

/-! ## Game controller (game.cpp)

All globals of game.cpp live in one record.  Each frame receives the tick
counter value `now` (`millis()`) and the raw button level `lvl`
(`digitalRead(BUTTON_PIN)`).  Display calls (`display_show_*`) touch no
modelled state.  Lifecycle events record every invocation of a state
handler, every assignment to `current_state`, and every call of
`eeprom_write_high_score`, in execution order. -/

inductive GameState
  | attract
  | playing
  | result
  | celebration
  | gameOver
deriving DecidableEq, Repr

inductive GEvent
  | enterCalled (st : GameState)
  | exitCalled (st : GameState)
  | stateSet (old new : GameState)
  | eepromSave (v : Nat)
deriving DecidableEq, Repr

structure GameData where
  state : GameState
  currentPosition : Nat
  chaseDirection : Int
  chaseSpeed : Nat
  lastChaseUpdate : Nat
  currentScore : Nat
  stateEntryTime : Nat
  highScore : Nat
  isNewHighScore : Bool
  button : ButtonState
  anim : AnimState
  eeprom : EEPROM
deriving DecidableEq, Repr

/-- `update_chase_position` (game.cpp lines 236-261).  `current_position`
is a `uint8_t` to which the `int8_t` direction is added (wrapping mod 256);
`NUM_LEDS = 8`. -/
def update_chase_position (now : Nat) (g : GameData) : GameData × List HwEffect :=
  if usub32 now g.lastChaseUpdate ≥ g.chaseSpeed then
    let pos1 := (((g.currentPosition : Int) + g.chaseDirection) % 256).toNat
    let dir1 := if pos1 = 0 then (1 : Int)
      else if pos1 = 7 then (-1 : Int)
      else g.chaseDirection
    ({ g with lastChaseUpdate := now, currentPosition := pos1, chaseDirection := dir1 },
      HwEffect.ledClearAll :: led_set pos1 true ++ [HwEffect.tone 100 20])
  else
    (g, [])

/-- `calculate_score` (game.cpp lines 263-271): `TARGET_ZONE_START = 3`,
`TARGET_ZONE_END = 4`, `BULLSEYE_SCORE = 10`. -/
def calculate_score (position : Nat) : Nat :=
  if 3 ≤ position ∧ position ≤ 4 then 10 else 0

/-- `attract_enter` (game.cpp lines 94-97): `INITIAL_CHASE_SPEED = 200`. -/
def attract_enter (_now : Nat) (_lvl : Bool) (g : GameData) : GameData × List GEvent :=
  ({ g with chaseSpeed := 200 }, [GEvent.enterCalled GameState.attract])

/-- `attract_exit` (game.cpp lines 109-114). -/
def attract_exit (now : Nat) (lvl : Bool) (g : GameData) : GameData × List GEvent :=
  ({ g with currentScore := 0, isNewHighScore := false
            button := button_clear_state now lvl },
    [GEvent.exitCalled GameState.attract])

/-- `playing_enter` (game.cpp lines 117-123). -/
def playing_enter (now : Nat) (_lvl : Bool) (g : GameData) : GameData × List GEvent :=
  ({ g with lastChaseUpdate := now }, [GEvent.enterCalled GameState.playing])

/-- `playing_exit` (game.cpp lines 176-178). -/
def playing_exit (_now : Nat) (_lvl : Bool) (g : GameData) : GameData × List GEvent :=
  (g, [GEvent.exitCalled GameState.playing])

/-- `result_enter` (game.cpp lines 181-183). -/
def result_enter (now : Nat) (_lvl : Bool) (g : GameData) : GameData × List GEvent :=
  ({ g with stateEntryTime := now }, [GEvent.enterCalled GameState.result])

/-- `result_exit` (game.cpp lines 194-196). -/
def result_exit (_now : Nat) (_lvl : Bool) (g : GameData) : GameData × List GEvent :=
  (g, [GEvent.exitCalled GameState.result])

/-- `celebration_enter` (game.cpp lines 199-203). -/
def celebration_enter (now : Nat) (_lvl : Bool) (g : GameData) : GameData × List GEvent :=
  ({ g with anim := animation_start_celebration now g.anim, stateEntryTime := now },
    [GEvent.enterCalled GameState.celebration])

/-- `celebration_exit` (game.cpp lines 214-216). -/
def celebration_exit (now : Nat) (lvl : Bool) (g : GameData) : GameData × List GEvent :=
  ({ g with button := button_clear_state now lvl },
    [GEvent.exitCalled GameState.celebration])

/-- `game_over_enter` (game.cpp lines 219-222). -/
def game_over_enter (now : Nat) (_lvl : Bool) (g : GameData) : GameData × List GEvent :=
  ({ g with anim := animation_start_game_over now g.anim },
    [GEvent.enterCalled GameState.gameOver])

/-- `game_over_exit` (game.cpp lines 231-234). -/
def game_over_exit (now : Nat) (lvl : Bool) (g : GameData) : GameData × List GEvent :=
  ({ g with currentScore := 0, button := button_clear_state now lvl },
    [GEvent.exitCalled GameState.gameOver])

/-- The `exit` column of `state_handlers` (game.cpp lines 44-50). -/
def exitHandler : GameState → Nat → Bool → GameData → GameData × List GEvent
  | GameState.attract => attract_exit
  | GameState.playing => playing_exit
  | GameState.result => result_exit
  | GameState.celebration => celebration_exit
  | GameState.gameOver => game_over_exit

/-- The `enter` column of `state_handlers` (game.cpp lines 44-50). -/
def enterHandler : GameState → Nat → Bool → GameData → GameData × List GEvent
  | GameState.attract => attract_enter
  | GameState.playing => playing_enter
  | GameState.result => result_enter
  | GameState.celebration => celebration_enter
  | GameState.gameOver => game_over_enter

/-- `game_transition_to` (game.cpp lines 52-65): exit the current state,
assign the state variable, enter the new state, in that order. -/
def game_transition_to (now : Nat) (lvl : Bool) (newState : GameState)
    (g : GameData) : GameData × List GEvent :=
  let e := exitHandler g.state now lvl g
  let g2 := { e.1 with state := newState }
  let n := enterHandler newState now lvl g2
  (n.1, e.2 ++ [GEvent.stateSet g.state newState] ++ n.2)

/-- `attract_update` (game.cpp lines 99-107). -/
def attract_update (now : Nat) (lvl : Bool) (g : GameData) : GameData × List GEvent :=
  let g1 := (update_chase_position now g).1
  let pb := button_just_pressed now lvl g1.button
  let g2 := { g1 with button := pb.2 }
  if pb.1 then
    game_transition_to now lvl GameState.playing g2
  else
    (g2, [])

/-- `playing_update` (game.cpp lines 125-174).  Scores are `uint16_t`:
`current_score += points` wraps mod 65536.  `MIN_CHASE_SPEED = 50`,
`SPEED_DECREASE = 5`, `BULLSEYE_SCORE = 10`. -/
def playing_update (now : Nat) (lvl : Bool) (g : GameData) : GameData × List GEvent :=
  let g1 := (update_chase_position now g).1
  let pb := button_just_pressed now lvl g1.button
  let g2 := { g1 with button := pb.2 }
  if pb.1 then
    let points := calculate_score g2.currentPosition
    if points > 0 then
      -- successful hit
      let score1 := (g2.currentScore + points) % 65536
      let g3 :=
        if score1 > g2.highScore then
          { g2 with currentScore := score1, isNewHighScore := true, highScore := score1 }
        else
          { g2 with currentScore := score1 }
      let g4 :=
        if points = 10 then { g3 with anim := animation_start_bullseye now g3.anim }
        else g3
      let g5 :=
        if g4.chaseSpeed > 50 then
          let sp := g4.chaseSpeed - 5
          { g4 with chaseSpeed := if sp < 50 then 50 else sp }
        else
          g4
      game_transition_to now lvl GameState.result g5
    else
      -- miss: game ends
      if g2.isNewHighScore then
        let g3 := { g2 with eeprom := eeprom_write_high_score g2.highScore g2.eeprom }
        let t := game_transition_to now lvl GameState.celebration g3
        (t.1, GEvent.eepromSave g2.highScore :: t.2)
      else
        game_transition_to now lvl GameState.gameOver g2
  else
    (g2, [])

/-- `result_update` (game.cpp lines 185-192): 300 ms dwell, then back to
PLAYING with the chase timer resynchronised. -/
def result_update (now : Nat) (lvl : Bool) (g : GameData) : GameData × List GEvent :=
  if usub32 now g.stateEntryTime ≥ 300 then
    let t := game_transition_to now lvl GameState.playing g
    ({ t.1 with lastChaseUpdate := now }, t.2)
  else
    (g, [])

/-- `celebration_update` (game.cpp lines 205-212): 2000 ms dwell, then back
to ATTRACT. -/
def celebration_update (now : Nat) (lvl : Bool) (g : GameData) : GameData × List GEvent :=
  if usub32 now g.stateEntryTime ≥ 2000 then
    game_transition_to now lvl GameState.attract g
  else
    (g, [])

/-- `game_over_update` (game.cpp lines 224-229): wait for the lose
animation, then back to ATTRACT. -/
def game_over_update (now : Nat) (lvl : Bool) (g : GameData) : GameData × List GEvent :=
  if ¬ (animation_is_playing g.anim = true) then
    game_transition_to now lvl GameState.attract g
  else
    (g, [])

/-- The `update` column of `state_handlers` (game.cpp lines 44-50). -/
def updateHandler : GameState → Nat → Bool → GameData → GameData × List GEvent
  | GameState.attract => attract_update
  | GameState.playing => playing_update
  | GameState.result => result_update
  | GameState.celebration => celebration_update
  | GameState.gameOver => game_over_update

/-- `game_update` (game.cpp lines 83-91): advance the animation engine
(result discarded), then run the current state's update handler. -/
def game_update (now : Nat) (lvl : Bool) (g : GameData) : GameData × List GEvent :=
  let g1 := { g with anim := (animation_update now g.anim).2.1 }
  updateHandler g1.state now lvl g1

/-- `game_init` (game.cpp lines 67-81): reset the gameplay variables, load
the high score, assign `current_state = STATE_ATTRACT` directly (line 79),
then self-transition to ATTRACT through `game_transition_to`. -/
def game_init (now : Nat) (lvl : Bool) (g : GameData) : GameData × List GEvent :=
  let g1 := { g with currentPosition := 0, chaseDirection := 1, chaseSpeed := 200
                     currentScore := 0, lastChaseUpdate := now
                     highScore := eeprom_read_high_score g.eeprom
                     isNewHighScore := false }
  let g2 := { g1 with state := GameState.attract }
  let t := game_transition_to now lvl GameState.attract g2
  (t.1, GEvent.stateSet g1.state GameState.attract :: t.2)

/-- C6: the centralized transition operation invokes exactly one exit
action (the outgoing state's), then assigns the state value, then invokes
exactly one entry action (the incoming state's), in that order, with the
state value changed strictly between the two actions. -/
theorem game_transition_to_spec (now : Nat) (lvl : Bool) (ns : GameState)
    (g : GameData) :
    (game_transition_to now lvl ns g).2 =
      [GEvent.exitCalled g.state, GEvent.stateSet g.state ns,
        GEvent.enterCalled ns] ∧
    (game_transition_to now lvl ns g).1.state = ns := by
  cases hs : g.state <;> cases ns <;>
    simp [game_transition_to, exitHandler, enterHandler, hs,
      attract_exit, playing_exit, result_exit, celebration_exit, game_over_exit,
      attract_enter, playing_enter, result_enter, celebration_enter,
      game_over_enter]

/-- C10: `game_init` enters ATTRACT through a self-transition, so the
ATTRACT exit action runs during initialisation: the score and the
new-high-score flag are cleared and the edge detector is reset before the
ATTRACT entry action executes (the event log shows the order, and the
clears survive to the end of `game_init` because `attract_enter` does not
undo them). -/
theorem game_init_self_transition (now : Nat) (lvl : Bool) (g : GameData) :
    (game_init now lvl g).2 =
      [GEvent.stateSet g.state GameState.attract,
        GEvent.exitCalled GameState.attract,
        GEvent.stateSet GameState.attract GameState.attract,
        GEvent.enterCalled GameState.attract] ∧
    (∀ h : GameData,
      (attract_exit now lvl h).1.currentScore = 0 ∧
      (attract_exit now lvl h).1.isNewHighScore = false ∧
      (attract_exit now lvl h).1.button = button_clear_state now lvl) ∧
    (game_init now lvl g).1.currentScore = 0 ∧
    (game_init now lvl g).1.isNewHighScore = false ∧
    (game_init now lvl g).1.button = button_clear_state now lvl := by
  refine ⟨?_, fun h => ⟨rfl, rfl, rfl⟩, ?_, ?_, ?_⟩ <;>
    simp [game_init, game_transition_to, exitHandler, enterHandler,
      attract_exit, attract_enter]

/-- C8: while in RESULT, a frame leaves for PLAYING exactly when at least
300 ms (in wraparound-safe `uint32_t` arithmetic) have elapsed since the
recorded entry time; and for any real times `TR ≤ tR` whose distance is
below `2^32`, the wrapped comparison sees exactly the real elapsed time,
so the dwell comparison stays correct across tick-counter wraparound. -/
theorem result_dwell (now : Nat) (lvl : Bool) (g : GameData)
    (hst : g.state = GameState.result) :
    ((game_update now lvl g).1.state =
      if usub32 now g.stateEntryTime ≥ 300 then GameState.playing
      else GameState.result) ∧
    (∀ tR TR : Nat, TR ≤ tR → tR - TR < 4294967296 →
      usub32 (tR % 4294967296) (TR % 4294967296) = tR - TR) := by
  constructor
  · by_cases hd : usub32 now g.stateEntryTime ≥ 300
    · simp [game_update, updateHandler, hst, result_update, hd,
        game_transition_to, exitHandler, enterHandler, result_exit,
        playing_enter]
    · simp [game_update, updateHandler, hst, result_update, hd]
  · intro tR TR h1 h2
    unfold usub32
    omega

def c8Data : GameData :=
  ⟨GameState.result, 3, 1, 200, 0, 20, 1000, 30, false, ⟨false, 0⟩,
    animInit, ⟨1, 2, 3, 4, 0⟩⟩

/-- Witness for C8: entered RESULT at tick 1000, frame at tick 1400. -/
theorem result_dwell_witness :
    (game_update 1400 true c8Data).1.state = GameState.playing := by
  rw [(result_dwell 1400 true c8Data rfl).1]
  decide

/-- Reachability invariant of the chase cursor: position within the strip,
direction one of the two unit directions, never pointing out of the strip
from a boundary it would immediately leave. -/
def chaseInv (g : GameData) : Prop :=
  g.currentPosition ≤ 7 ∧
  (g.chaseDirection = 1 ∨ g.chaseDirection = -1) ∧
  (g.chaseDirection = 1 → g.currentPosition ≤ 6) ∧
  (g.chaseDirection = -1 → 1 ≤ g.currentPosition)

theorem chaseInv_step (now : Nat) (g : GameData) (h : chaseInv g) :
    chaseInv (update_chase_position now g).1 := by
  obtain ⟨hp, hd, h1, h2⟩ := h
  unfold update_chase_position
  by_cases hm : usub32 now g.lastChaseUpdate ≥ g.chaseSpeed
  · simp only [if_pos hm]
    rcases hd with hd | hd
    · have h6 := h1 hd
      have hpos1 : (((g.currentPosition : Int) + g.chaseDirection) % 256).toNat =
          g.currentPosition + 1 := by
        rw [hd, Int.emod_eq_of_lt (by omega) (by omega)]
        omega
      by_cases h7 : g.currentPosition + 1 = 7
      · simp [chaseInv, hpos1, h7]
      · have h0 : ¬ (g.currentPosition + 1 = 0) := by omega
        simp [chaseInv, hpos1, h7, h0, hd]
        omega
    · have hge := h2 hd
      have hpos1 : (((g.currentPosition : Int) + g.chaseDirection) % 256).toNat =
          g.currentPosition - 1 := by
        rw [hd, Int.emod_eq_of_lt (by omega) (by omega)]
        omega
      by_cases h0 : g.currentPosition - 1 = 0
      · simp [chaseInv, hpos1, h0]
      · have h7 : ¬ (g.currentPosition - 1 = 7) := by omega
        simp [chaseInv, hpos1, h7, h0, hd]
        omega
  · simp only [if_neg hm]
    exact ⟨hp, Or.inl (by assumption) |>.imp id id |>.elim (fun _ => by tauto) (fun _ => by tauto), h1, h2⟩

theorem chaseInv_init (now : Nat) (lvl : Bool) (g : GameData) :
    chaseInv (game_init now lvl g).1 := by
  simp [chaseInv, game_init, game_transition_to, exitHandler, enterHandler,
    attract_exit, attract_enter]

theorem chase_reversal_char (now : Nat) (g : GameData) (h : chaseInv g) :
    (update_chase_position now g).1.chaseDirection ≠ g.chaseDirection ↔
      (usub32 now g.lastChaseUpdate ≥ g.chaseSpeed ∧
        ((update_chase_position now g).1.currentPosition = 0 ∨
          (update_chase_position now g).1.currentPosition = 7)) := by
  obtain ⟨hp, hd, h1, h2⟩ := h
  unfold update_chase_position
  by_cases hm : usub32 now g.lastChaseUpdate ≥ g.chaseSpeed
  · rcases hd with hd | hd
    · have h6 := h1 hd
      have hpos1 : (((g.currentPosition : Int) + 1) % 256).toNat =
          g.currentPosition + 1 := by
        rw [Int.emod_eq_of_lt (by omega) (by omega)]
        omega
      rw [hd]
      simp only [if_pos hm, hpos1]
      have h0 : ¬ (g.currentPosition + 1 = 0) := by omega
      by_cases h7 : g.currentPosition + 1 = 7
      · simp [h7, h0, hm]
      · simp [h7, h0, hm]
    · have hge := h2 hd
      have hpos1 : (((g.currentPosition : Int) + -1) % 256).toNat =
          g.currentPosition - 1 := by
        rw [Int.emod_eq_of_lt (by omega) (by omega)]
        omega
      rw [hd]
      simp only [if_pos hm, hpos1]
      by_cases h0 : g.currentPosition - 1 = 0
      · simp [h0, hm]
      · have h7 : ¬ (g.currentPosition - 1 = 7) := by omega
        simp [h7, h0, hm]
  · simp [if_neg hm, hm]

/-- C5: the chase cursor stays within `[0, 7]` under every sequence of
chase-position updates from the initial state, and the direction reverses
exactly when an update moves the cursor onto boundary index 0 or 7 and at
no other position: the initialised state satisfies the reachability
invariant, every update preserves it, the invariant bounds the position,
and under the invariant a direction change happens iff the cursor moved
onto a boundary. -/
theorem chase_cursor_bounce :
    (∀ now lvl g, chaseInv (game_init now lvl g).1) ∧
    (∀ now g, chaseInv g → chaseInv (update_chase_position now g).1) ∧
    (∀ g, chaseInv g → g.currentPosition ≤ 7) ∧
    (∀ now g, chaseInv g →
      ((update_chase_position now g).1.chaseDirection ≠ g.chaseDirection ↔
        (usub32 now g.lastChaseUpdate ≥ g.chaseSpeed ∧
          ((update_chase_position now g).1.currentPosition = 0 ∨
            (update_chase_position now g).1.currentPosition = 7)))) :=
  ⟨chaseInv_init, chaseInv_step, fun _ h => h.1, chase_reversal_char⟩

def c5Boot : GameData :=
  ⟨GameState.attract, 0, 1, 200, 0, 0, 0, 0, false, ⟨false, 0⟩,
    animInit, ⟨1, 2, 3, 4, 0⟩⟩

/-- Witness for C5: after initialisation and one elapsed-interval update
the cursor is still inside the strip. -/
theorem chase_cursor_bounce_witness :
    chaseInv (game_init 0 true c5Boot).1 ∧
    (update_chase_position 250 (game_init 0 true c5Boot).1).1.currentPosition ≤ 7 := by
  have h0 := chase_cursor_bounce.1 0 true c5Boot
  exact ⟨h0, chase_cursor_bounce.2.2.1 _ (chase_cursor_bounce.2.1 250 _ h0)⟩

/-- The claimed frame invariant: the current score never exceeds the high
score. -/
def scoreInv (g : GameData) : Prop :=
  g.currentScore ≤ g.highScore

theorem scoreInv_exitHandler (st : GameState) (now : Nat) (lvl : Bool)
    (g : GameData) (h : scoreInv g) : scoreInv (exitHandler st now lvl g).1 := by
  cases st <;>
    simp_all [scoreInv, exitHandler, attract_exit, playing_exit, result_exit,
      celebration_exit, game_over_exit]

theorem scoreInv_enterHandler (st : GameState) (now : Nat) (lvl : Bool)
    (g : GameData) (h : scoreInv g) : scoreInv (enterHandler st now lvl g).1 := by
  cases st <;>
    simp_all [scoreInv, enterHandler, attract_enter, playing_enter, result_enter,
      celebration_enter, game_over_enter]

theorem scoreInv_transition (now : Nat) (lvl : Bool) (ns : GameState)
    (g : GameData) (h : scoreInv g) : scoreInv (game_transition_to now lvl ns g).1 :=
  scoreInv_enterHandler ns now lvl _
    (scoreInv_exitHandler g.state now lvl g h)

theorem chase_keeps_scores (now : Nat) (g : GameData) :
    (update_chase_position now g).1.currentScore = g.currentScore ∧
    (update_chase_position now g).1.highScore = g.highScore := by
  unfold update_chase_position
  split <;> simp

theorem scoreInv_chase (now : Nat) (g : GameData) (h : scoreInv g) :
    scoreInv (update_chase_position now g).1 := by
  unfold scoreInv
  rw [(chase_keeps_scores now g).1, (chase_keeps_scores now g).2]
  exact h

theorem scoreInv_attract_update (now : Nat) (lvl : Bool) (g : GameData)
    (h : scoreInv g) : scoreInv (attract_update now lvl g).1 := by
  have hc := scoreInv_chase now g h
  simp only [attract_update]
  by_cases hp : (button_just_pressed now lvl (update_chase_position now g).1.button).1
  · simp only [if_pos hp]
    exact scoreInv_transition now lvl GameState.playing _ hc
  · simp only [if_neg hp]
    exact hc

theorem scoreInv_congr {a b : GameData} (h : scoreInv a)
    (hs : b.currentScore = a.currentScore) (hh : b.highScore = a.highScore) :
    scoreInv b := by
  unfold scoreInv at *
  rw [hs, hh]
  exact h

/-- The score/high-score update on a hit keeps the invariant, whatever the
previous relation was. -/
theorem scoreInv_hit_core (g2 : GameData) (points : Nat) :
    scoreInv (if (g2.currentScore + points) % 65536 > g2.highScore then
        { g2 with currentScore := (g2.currentScore + points) % 65536,
                  isNewHighScore := true,
                  highScore := (g2.currentScore + points) % 65536 }
      else
        { g2 with currentScore := (g2.currentScore + points) % 65536 }) := by
  by_cases hhi : (g2.currentScore + points) % 65536 > g2.highScore
  · simp [scoreInv, hhi]
  · simp [scoreInv, hhi]
    omega

theorem scoreInv_playing_update (now : Nat) (lvl : Bool) (g : GameData)
    (h : scoreInv g) : scoreInv (playing_update now lvl g).1 := by
  have hc := scoreInv_chase now g h
  simp only [playing_update]
  by_cases hp : (button_just_pressed now lvl (update_chase_position now g).1.button).1
  · simp only [if_pos hp]
    by_cases hpts : calculate_score (update_chase_position now g).1.currentPosition > 0
    · simp only [if_pos hpts]
      apply scoreInv_transition
      refine scoreInv_congr (scoreInv_hit_core
        { (update_chase_position now g).1 with
            button := (button_just_pressed now lvl
              (update_chase_position now g).1.button).2 }
        (calculate_score (update_chase_position now g).1.currentPosition)) ?_ ?_ <;>
        (repeat' split) <;> simp_all
    · simp only [if_neg hpts]
      by_cases hflag : (update_chase_position now g).1.isNewHighScore = true
      · simp only [hflag, if_pos rfl]
        apply scoreInv_transition
        exact hc
      · simp only [Bool.not_eq_true] at hflag
        simp only [hflag]
        simp only [Bool.false_eq_true, if_neg (by simp : ¬False)]
        exact scoreInv_transition now lvl GameState.gameOver _ hc
  · simp only [if_neg hp]
    exact hc

theorem scoreInv_result_update (now : Nat) (lvl : Bool) (g : GameData)
    (h : scoreInv g) : scoreInv (result_update now lvl g).1 := by
  simp only [result_update]
  by_cases ht : usub32 now g.stateEntryTime ≥ 300
  · simp only [if_pos ht]
    exact scoreInv_congr (scoreInv_transition now lvl GameState.playing g h) rfl rfl
  · simp only [if_neg ht]
    exact h

theorem scoreInv_celebration_update (now : Nat) (lvl : Bool) (g : GameData)
    (h : scoreInv g) : scoreInv (celebration_update now lvl g).1 := by
  simp only [celebration_update]
  by_cases ht : usub32 now g.stateEntryTime ≥ 2000
  · simp only [if_pos ht]
    exact scoreInv_transition now lvl GameState.attract g h
  · simp only [if_neg ht]
    exact h

theorem scoreInv_game_over_update (now : Nat) (lvl : Bool) (g : GameData)
    (h : scoreInv g) : scoreInv (game_over_update now lvl g).1 := by
  simp only [game_over_update]
  by_cases ht : ¬ (animation_is_playing g.anim = true)
  · simp only [if_pos ht]
    exact scoreInv_transition now lvl GameState.attract g h
  · simp only [if_neg ht]
    exact h

/-- C9: `current_score <= high_score` holds right after `game_init` and is
preserved by every `game_update` frame: a hit that pushes the current score
above the high score raises the high score in the same update. -/
theorem score_le_high_invariant :
    (∀ now lvl g, (game_init now lvl g).1.currentScore ≤
      (game_init now lvl g).1.highScore) ∧
    (∀ now lvl g, g.currentScore ≤ g.highScore →
      (game_update now lvl g).1.currentScore ≤ (game_update now lvl g).1.highScore) := by
  constructor
  · intro now lvl g
    simp [game_init, game_transition_to, exitHandler, enterHandler,
      attract_exit, attract_enter]
  · intro now lvl g h
    have h1 : scoreInv { g with anim := (animation_update now g.anim).2.1 } := h
    show scoreInv (game_update now lvl g).1
    simp only [game_update]
    cases hst : g.state
    · exact scoreInv_attract_update now lvl _ h1
    · exact scoreInv_playing_update now lvl _ h1
    · exact scoreInv_result_update now lvl _ h1
    · exact scoreInv_celebration_update now lvl _ h1
    · exact scoreInv_game_over_update now lvl _ h1

def c9Data : GameData :=
  ⟨GameState.playing, 4, 1, 200, 0, 20, 0, 30, false, ⟨false, 0⟩,
    animInit, ⟨1, 2, 3, 4, 0⟩⟩

/-- Witness for C9 at a concrete PLAYING frame that scores a hit. -/
theorem score_le_high_invariant_witness :
    (game_update 60 false c9Data).1.currentScore ≤
      (game_update 60 false c9Data).1.highScore :=
  score_le_high_invariant.2 60 false c9Data (by decide)

/-- The chase update ignores and preserves the animation field. -/
theorem update_chase_anim (now : Nat) (g : GameData) (a : AnimState) :
    (update_chase_position now { g with anim := a }).1 =
      { (update_chase_position now g).1 with anim := a } := by
  unfold update_chase_position
  by_cases hm : usub32 now g.lastChaseUpdate ≥ g.chaseSpeed
  · simp [hm]
  · simp [hm]

/-- The chase update touches nothing but the cursor and its timer. -/
theorem chase_keeps_fields (now : Nat) (g : GameData) :
    (update_chase_position now g).1.currentScore = g.currentScore ∧
    (update_chase_position now g).1.highScore = g.highScore ∧
    (update_chase_position now g).1.isNewHighScore = g.isNewHighScore ∧
    (update_chase_position now g).1.button = g.button ∧
    (update_chase_position now g).1.eeprom = g.eeprom ∧
    (update_chase_position now g).1.state = g.state := by
  unfold update_chase_position
  split <;> simp

/-- C7: in PLAYING, an accepted press with the cursor outside the target
zone while the new-high-score flag is unset moves the machine to
GAME_OVER, leaves the current score unchanged at the end of the frame,
performs no write to the EEPROM store (the bytes are untouched and no save
call is logged), and the score is zeroed only later, by GAME_OVER's exit
action. -/
theorem playing_miss_no_highscore (now : Nat) (lvl : Bool) (g : GameData)
    (hst : g.state = GameState.playing)
    (hlvl : lvl = false)
    (hedge : g.button.lastButtonState = false)
    (hdb : usub32 now g.button.lastDebounceTime ≥ 50)
    (hmiss : ¬ (3 ≤ (update_chase_position now g).1.currentPosition ∧
        (update_chase_position now g).1.currentPosition ≤ 4))
    (hflag : g.isNewHighScore = false) :
    (game_update now lvl g).1.state = GameState.gameOver ∧
    (game_update now lvl g).1.currentScore = g.currentScore ∧
    (game_update now lvl g).1.eeprom = g.eeprom ∧
    (∀ v, GEvent.eepromSave v ∉ (game_update now lvl g).2) ∧
    (∀ n2 l2 h, (game_over_exit n2 l2 h).1.currentScore = 0) := by
  obtain ⟨st, pos, dir, sp, lcu, cs, sem, hsc, nhs, btn, an, ee⟩ := g
  change st = GameState.playing at hst
  change nhs = false at hflag
  change btn.lastButtonState = false at hedge
  change usub32 now btn.lastDebounceTime ≥ 50 at hdb
  subst hst
  subst hlvl
  subst hflag
  have hkeep := chase_keeps_fields now
    (⟨GameState.playing, pos, dir, sp, lcu, cs, sem, hsc, false, btn,
      (animation_update now an).2.1, ee⟩ : GameData)
  have hanim : (update_chase_position now
      (⟨GameState.playing, pos, dir, sp, lcu, cs, sem, hsc, false, btn,
        (animation_update now an).2.1, ee⟩ : GameData)).1 =
      { (update_chase_position now
          (⟨GameState.playing, pos, dir, sp, lcu, cs, sem, hsc, false, btn,
            an, ee⟩ : GameData)).1 with anim := (animation_update now an).2.1 } :=
    update_chase_anim now
      (⟨GameState.playing, pos, dir, sp, lcu, cs, sem, hsc, false, btn, an, ee⟩ : GameData)
      (animation_update now an).2.1
  have hpressed : (button_just_pressed now false
      (update_chase_position now
        (⟨GameState.playing, pos, dir, sp, lcu, cs, sem, hsc, false, btn,
          (animation_update now an).2.1, ee⟩ : GameData)).1.button).1 = true := by
    rw [hkeep.2.2.2.1]
    simp [button_just_pressed, hedge, hdb]
  have hpts : calculate_score (update_chase_position now
      (⟨GameState.playing, pos, dir, sp, lcu, cs, sem, hsc, false, btn,
        (animation_update now an).2.1, ee⟩ : GameData)).1.currentPosition = 0 := by
    rw [show (update_chase_position now
      (⟨GameState.playing, pos, dir, sp, lcu, cs, sem, hsc, false, btn,
        (animation_update now an).2.1, ee⟩ : GameData)).1.currentPosition =
      (update_chase_position now
        (⟨GameState.playing, pos, dir, sp, lcu, cs, sem, hsc, false, btn,
          an, ee⟩ : GameData)).1.currentPosition by rw [hanim]]
    simp only [calculate_score, if_neg hmiss]
  have hfl : (update_chase_position now
      (⟨GameState.playing, pos, dir, sp, lcu, cs, sem, hsc, false, btn,
        (animation_update now an).2.1, ee⟩ : GameData)).1.isNewHighScore = false :=
    hkeep.2.2.1
  simp only [game_update, updateHandler, playing_update, hpressed, hpts, hfl]
  simp [game_transition_to, exitHandler, enterHandler, playing_exit,
    game_over_enter, game_over_exit, hkeep.1, hkeep.2.2.2.2.1,
    hkeep.2.2.2.2.2]

def c7Data : GameData :=
  ⟨GameState.playing, 6, 1, 200, 0, 7, 0, 9, false, ⟨false, 0⟩,
    animInit, ⟨1, 2, 3, 4, 0⟩⟩

/-- Witness for C7: cursor at LED 6 (outside the 3-4 target zone), flag
unset, accepted press at tick 60. -/
theorem playing_miss_no_highscore_witness :
    (game_update 60 false c7Data).1.state = GameState.gameOver :=
  (playing_miss_no_highscore 60 false c7Data rfl rfl rfl (by decide)
    (by decide) rfl).1
